import Mathlib

/-!
Verification development for the supersave entity store.

The definitions below are a shallow embedding of the storage engine:
the query builder (`Query`), the SQLite and MySQL repositories
(SQL emission for `getByQuery`, `create`, `update`, `deleteUsingId`),
the schema synchronizers (`migrateContentsColumn` on both engines) and
the entity-manager registry.  JavaScript records are embedded as
association lists of `JsValue`s; SQL emission is modelled as the strings
and bound-parameter lists the code builds; DDL execution is modelled as
the ordered list of emitted operations.
-/

/-- Field kinds of `filterSortFields` (`string` / `number` / `boolean`). -/
inductive FilterSortField where
  | string
  | number
  | boolean
deriving DecidableEq, Repr

/-- The query operators of `QueryOperatorEnum`; each carries its SQL text,
which the repositories interpolate directly into the WHERE clause. -/
inductive QueryOperator where
  | equals
  | greaterThan
  | greaterThanEquals
  | lessThan
  | lessThanEquals
  | like
  | inOp
deriving DecidableEq, Repr

/-- The SQL text of a query operator (the string value of the TS enum). -/
def QueryOperator.sql : QueryOperator → String
  | .equals => "="
  | .greaterThan => ">"
  | .greaterThanEquals => ">="
  | .lessThan => "<"
  | .lessThanEquals => "<="
  | .like => "LIKE"
  | .inOp => "IN"

/-- The logical operators of `LogicalOperatorEnum` with their SQL text. -/
inductive LogicalOperator where
  | and
  | or
  | not
deriving DecidableEq, Repr

/-- The SQL text of a logical operator (the string value of the TS enum). -/
def LogicalOperator.sql : LogicalOperator → String
  | .and => "AND"
  | .or => "OR"
  | .not => "NOT"

/-- JavaScript values as the repositories see them: primitives, `null`,
`undefined`, arrays and plain objects (association lists, first match wins). -/
inductive JsValue where
  | str (s : String)
  | num (n : Int)
  | bool (b : Bool)
  | null
  | undef
  | arr (xs : List JsValue)
  | obj (fields : List (String × JsValue))

/-- A JavaScript object: ordered key/value pairs. -/
abbrev JsObject := List (String × JsValue)

/-- Whether the object has the key (JS `key in obj`). -/
def objHasKey (o : JsObject) (k : String) : Bool :=
  o.any (fun p => p.1 == k)

/-- JS property read: the value under the key, `undefined` when absent. -/
def objGet (o : JsObject) (k : String) : JsValue :=
  match o.lookup k with
  | some v => v
  | none => JsValue.undef

/-- JS `delete obj[k]`. -/
def objDelete (o : JsObject) (k : String) : JsObject :=
  o.filter (fun p => p.1 != k)

/-- JS `obj[k] = v`: overwrite in place, or append the key. -/
def objSet (o : JsObject) (k : String) (v : JsValue) : JsObject :=
  if objHasKey o k then
    o.map (fun p => if p.1 == k then (k, v) else p)
  else
    o ++ [(k, v)]

/-- JS spread merge of two object literals: the keys of the first in order
with the second's values overriding in place, then the second's new keys. -/
def spread (a b : JsObject) : JsObject :=
  a.map (fun p => if objHasKey b p.1 then (p.1, objGet b p.1) else p)
    ++ b.filter (fun p => !(objHasKey a p.1))

/-- The keys that survive `JSON.stringify`: keys whose value is not
`undefined` (stringify drops undefined-valued properties). -/
def jsonKeys (o : JsObject) : List String :=
  (o.filter (fun p => !(p.2 matches JsValue.undef))).map Prod.fst

/-- JS truthiness of `['1', 1, 'true', true].includes(value)`:
the boolean coercion both repositories apply to boolean filter values. -/
def jsBooleanTruthy : JsValue → Bool
  | .str s => s == "1" || s == "true"
  | .num n => n == 1
  | .bool b => b
  | _ => false

/-- Whether the value is `null` or `undefined`. -/
def isNullish : JsValue → Bool
  | .null => true
  | .undef => true
  | _ => false

/-- JS template-string coercion of a value (only the cases the code hits). -/
def jsToString : JsValue → String
  | .str s => s
  | .num n => toString n
  | .bool b => if b then "true" else "false"
  | .null => "null"
  | .undef => "undefined"
  | .arr _ => ""
  | .obj _ => "[object Object]"

/-- Global single-character replacement, as the JS `replace(/c/g, r)` calls. -/
def replaceChar (s : String) (c : Char) (r : String) : String :=
  String.join (s.data.map (fun ch => if ch = c then r else String.singleton ch))

/-- A relation of an entity definition. -/
structure Relation where
  field : String
  entity : String
  namespaceName : Option String
  multiple : Bool

/-- An entity definition: name, optional namespace, template, relations and
optional `filterSortFields` (a record, embedded as an ordered list). -/
structure EntityDefinition where
  name : String
  namespaceName : Option String := none
  template : JsObject := []
  relations : List Relation := []
  filterSortFields : Option (List (String × FilterSortField)) := none

/-- A query sort entry (field plus `asc` / `desc`). -/
structure QuerySort where
  field : String
  direction : String
deriving DecidableEq, Repr

/-- A query condition: a plain filter or a logical group over conditions. -/
inductive QueryCondition where
  | filter (operator : QueryOperator) (field : String) (value : JsValue)
  | group (logicalOperator : LogicalOperator) (conditions : List QueryCondition)

/-- The query builder's state (class `Query` of the entity manager):
the injected `filterSortFields`, the finalized `where` list, the pending
group, the sorts and limit/offset. -/
structure Query where
  filterSortFields : List (String × FilterSortField)
  whereConds : List QueryCondition := []
  currentGroup : Option (LogicalOperator × List QueryCondition) := none
  sortValues : List QuerySort := []
  limitValue : Option Int := none
  offsetValue : Option Int := none

/-- `finalizeGroup`: push the pending group (if any) onto the where list. -/
def Query.finalizeGroup (q : Query) : Query :=
  match q.currentGroup with
  | some (lop, conds) =>
      { q with
        whereConds := q.whereConds ++ [QueryCondition.group lop conds],
        currentGroup := none }
  | none => q

/-- `Query.addFilter`: reject unknown fields with a `TypeError` before any
mutation; otherwise add the filter to the pending group (closing a NOT
group) or to the top-level list.  The returned pair is the state after the
call together with the thrown error message, if one was thrown. -/
def Query.addFilter (q : Query) (operator : QueryOperator) (field : String)
    (value : JsValue) : Query × Option String :=
  if (q.filterSortFields.lookup field).isNone then
    (q, some ("Cannot filter on not defined field " ++ field ++ "."))
  else
    let filter := QueryCondition.filter operator field value
    match q.currentGroup with
    | some (lop, conds) =>
        let q1 := { q with currentGroup := some (lop, conds ++ [filter]) }
        (if lop = LogicalOperator.not then q1.finalizeGroup else q1, none)
    | none => ({ q with whereConds := q.whereConds ++ [filter] }, none)

/-- Builder method `eq`. -/
def Query.eq (q : Query) (field : String) (value : JsValue) : Query × Option String :=
  q.addFilter QueryOperator.equals field value

/-- Builder method `gt`. -/
def Query.gt (q : Query) (field : String) (value : JsValue) : Query × Option String :=
  q.addFilter QueryOperator.greaterThan field value

/-- Builder method `gte`. -/
def Query.gte (q : Query) (field : String) (value : JsValue) : Query × Option String :=
  q.addFilter QueryOperator.greaterThanEquals field value

/-- Builder method `lt`. -/
def Query.lt (q : Query) (field : String) (value : JsValue) : Query × Option String :=
  q.addFilter QueryOperator.lessThan field value

/-- Builder method `lte`. -/
def Query.lte (q : Query) (field : String) (value : JsValue) : Query × Option String :=
  q.addFilter QueryOperator.lessThanEquals field value

/-- Builder method `like`. -/
def Query.like (q : Query) (field : String) (value : String) : Query × Option String :=
  q.addFilter QueryOperator.like field (JsValue.str value)

/-- Builder method `in` (named `inOp` here; `in` is a Lean keyword). -/
def Query.inOp (q : Query) (field : String) (value : List JsValue) : Query × Option String :=
  q.addFilter QueryOperator.inOp field (JsValue.arr value)

/-- Builder method `sort`: reject unknown fields with a `TypeError` before
pushing onto `sortValues`. -/
def Query.sort (q : Query) (field : String) (direction : String) : Query × Option String :=
  if (q.filterSortFields.lookup field).isNone then
    (q, some ("Requested sort field " ++ field ++ " is not defined."))
  else
    ({ q with sortValues := q.sortValues ++ [QuerySort.mk field direction] }, none)

/-- `EntityManager.getFullEntityName`: the registry key. -/
def getFullEntityName (name : String) (namespaceName : Option String) : String :=
  match namespaceName with
  | some ns => ns ++ "_" ++ name
  | none => name

/-- `EntityManager.getRepository`: look the key up in the registry; a missing
key throws a `TypeError` listing the known keys.  Repositories are embedded
as opaque tags of type `Nat`. -/
def getRepository (repositories : List (String × Nat)) (name : String)
    (namespaceName : Option String) : Except String Nat :=
  match repositories.lookup (getFullEntityName name namespaceName) with
  | some repository => Except.ok repository
  | none =>
      Except.error ("Entity " ++ getFullEntityName name namespaceName
        ++ " not defined. Existing are: ("
        ++ String.intercalate ", " (repositories.map Prod.fst) ++ ")")

/-- A physical table's rows for the delete model: (id column, contents). -/
abbrev TableRows := List (String × String)

/-- `Repository.deleteUsingId` (SQLite): `DELETE FROM t WHERE id = ?`.
The statement removes every row whose id column equals the argument and
the method resolves successfully whether or not a row matched. -/
def Sqlite.deleteUsingId (rows : TableRows) (id : String) : TableRows :=
  rows.filter (fun row => row.1 != id)

/-- `Repository.deleteUsingId` (MySQL): `DELETE FROM t WHERE id = ?`,
same statement semantics as the SQLite engine. -/
def Mysql.deleteUsingId (rows : TableRows) (id : String) : TableRows :=
  rows.filter (fun row => row.1 != id)

/-- `getValueForFilter` (SQLite repository): boolean fields bind 0/1, LIKE
values convert shell-style `*` wildcards to `%`, others bind unchanged. -/
def Sqlite.getValueForFilter (filterSortFields : List (String × FilterSortField))
    (operator : QueryOperator) (field : String) (value : JsValue) : JsValue :=
  if filterSortFields.lookup field = some FilterSortField.boolean then
    if jsBooleanTruthy value then JsValue.num 1 else JsValue.num 0
  else if operator = QueryOperator.like then
    JsValue.str (replaceChar (jsToString value) '*' "%")
  else
    value

mutual

/-- `Repository.buildWhereClause` (SQLite): recursive translation of one
query condition to a SQL fragment plus the parameter values it binds, in
binding order.  Logical groups translate their children, drop the empty
fragments, join the rest with the group operator and parenthesize, with a
`NOT ` prefix for NOT groups; a group whose fragments are all empty yields
the empty fragment. -/
def Sqlite.buildWhereClause (filterSortFields : List (String × FilterSortField)) :
    QueryCondition → String × List JsValue
  | QueryCondition.group lop conds =>
      let results := Sqlite.buildWhereClauseList filterSortFields conds
      let clauses := (results.map Prod.fst).filter (fun c => c != "")
      let vals := (results.map Prod.snd).flatten
      match clauses with
      | [] => ("", vals)
      | [c] =>
          (if lop = LogicalOperator.not then "NOT (" ++ c ++ ")" else "(" ++ c ++ ")",
           vals)
      | c1 :: c2 :: rest =>
          let joined := String.intercalate (" " ++ lop.sql ++ " ") (c1 :: c2 :: rest)
          (if lop = LogicalOperator.not then "NOT (" ++ joined ++ ")"
           else "(" ++ joined ++ ")", vals)
  | QueryCondition.filter operator field value =>
      if operator = QueryOperator.inOp then
        let elements := match value with
          | JsValue.arr xs => xs
          | _ => []
        ("\"" ++ field ++ "\" IN ("
           ++ String.intercalate "," (elements.map (fun _ => "?")) ++ ")",
         elements)
      else if operator = QueryOperator.equals ∧ isNullish value then
        ("\"" ++ field ++ "\" IS NULL", [])
      else
        ("\"" ++ field ++ "\" " ++ operator.sql ++ " ?",
         [Sqlite.getValueForFilter filterSortFields operator field value])

/-- Helper of `Sqlite.buildWhereClause`: translate a condition list in order
(the source maps over `group.conditions`, threading the values array). -/
def Sqlite.buildWhereClauseList (filterSortFields : List (String × FilterSortField)) :
    List QueryCondition → List (String × List JsValue)
  | [] => []
  | c :: cs =>
      Sqlite.buildWhereClause filterSortFields c
        :: Sqlite.buildWhereClauseList filterSortFields cs

end

/-- JS numeric truthiness of the optional limit: `if (query.getLimit())` is
taken exactly when the limit is set and nonzero. -/
def truthyNum : Option Int → Bool
  | none => false
  | some n => n != 0

/-- JS template interpolation of an optional number. -/
def jsNumberText : Option Int → String
  | some n => toString n
  | none => "undefined"

/-- The `LIMIT` tail of `getByQuery` on both engines: appended only when the
limit is truthy; with an offset set the clause is `LIMIT <offset>,<limit>`. -/
def limitTail (limit offset : Option Int) : String :=
  if truthyNum limit then
    " LIMIT "
      ++ (match offset with
          | some o => toString o ++ "," ++ jsNumberText limit
          | none => jsNumberText limit)
  else ""

/-- `Repository.getByQuery` (SQLite), SQL emission: base select, WHERE from
the translated top-level conditions joined with ` AND ` (empty fragments
dropped), `ORDER BY` with `COLLATE NOCASE`, then the LIMIT tail. -/
def Sqlite.getByQuerySql (tableName : String)
    (filterSortFields : List (String × FilterSortField))
    (conds : List QueryCondition) (sorts : List QuerySort)
    (limit offset : Option Int) : String :=
  let whereClauses :=
    ((Sqlite.buildWhereClauseList filterSortFields conds).map Prod.fst).filter
      (fun c => c != "")
  let afterWhere :=
    if whereClauses.length > 0 then
      "SELECT id,contents FROM " ++ tableName ++ " WHERE "
        ++ String.intercalate " AND " whereClauses
    else
      "SELECT id,contents FROM " ++ tableName
  let afterSort :=
    if sorts.length > 0 then
      afterWhere ++ " ORDER BY "
        ++ String.intercalate ","
          (sorts.map (fun sort =>
            "\"" ++ sort.field ++ "\" COLLATE NOCASE " ++ sort.direction))
    else afterWhere
  afterSort ++ limitTail limit offset

/-- `Pool.escapeId` of the mysql2 driver: backtick-quote the identifier,
doubling backticks and quoting at dots. -/
def escapeId (s : String) : String :=
  "`" ++ replaceChar (replaceChar s '`' "``") '.' "`.`" ++ "`"

/-- JS property access on a query condition object: `.operator` is present
only on filters (a logical group has no such key, so the access yields
`undefined`). -/
def conditionOperator : QueryCondition → Option QueryOperator
  | QueryCondition.filter operator _ _ => some operator
  | QueryCondition.group _ _ => none

/-- JS property access `.field` of a condition (`undefined` on groups). -/
def conditionField : QueryCondition → Option String
  | QueryCondition.filter _ field _ => some field
  | QueryCondition.group _ _ => none

/-- JS property access `.value` of a condition (`undefined` on groups). -/
def conditionValue : QueryCondition → JsValue
  | QueryCondition.filter _ _ value => value
  | QueryCondition.group _ _ => JsValue.undef

/-- JS coercion of a possibly-undefined identifier as `escapeId` receives it:
`String(undefined)` is the text `undefined`. -/
def escapeIdOpt : Option String → String
  | some s => escapeId s
  | none => escapeId "undefined"

/-- JS interpolation of a possibly-undefined operator into the fragment. -/
def operatorTextOpt : Option QueryOperator → String
  | some op => op.sql
  | none => "undefined"

/-- `Repository.getByQuery` (MySQL), one step of the `forEach` over
`query.getWhere()`: every condition is treated as a plain `QueryFilter` —
the MySQL repository has no logical-group branch, so a group's missing
`operator`/`field`/`value` properties read as `undefined` and fall into the
final branch.  Returns the pushed where fragments and parameter values. -/
def Mysql.whereForCondition (filterSortFields : List (String × FilterSortField))
    (c : QueryCondition) : List String × List JsValue :=
  let operator := conditionOperator c
  let field := conditionField c
  let value := conditionValue c
  if operator = some QueryOperator.inOp then
    let elements := match value with
      | JsValue.arr xs => xs
      | _ => []
    ([escapeIdOpt field ++ " IN("
        ++ String.intercalate "," (elements.map (fun _ => "?")) ++ ")"],
     elements)
  else if operator = some QueryOperator.equals ∧ isNullish value then
    ([escapeIdOpt field ++ " IS NULL"], [])
  else
    ([escapeIdOpt field ++ " " ++ operatorTextOpt operator ++ " ?"],
     [if filterSortFields.lookup ((field).getD "undefined")
           = some FilterSortField.boolean then
        if jsBooleanTruthy value then JsValue.num 1 else JsValue.num 0
      else if operator = some QueryOperator.like then
        JsValue.str (replaceChar (jsToString value) '*' "%")
      else value])

/-- `Repository.getByQuery` (MySQL): the `forEach` over the top-level
condition list, accumulating where fragments and values in order. -/
def Mysql.buildWhere (filterSortFields : List (String × FilterSortField))
    (conds : List QueryCondition) : List String × List JsValue :=
  conds.foldl
    (fun acc c =>
      let r := Mysql.whereForCondition filterSortFields c
      (acc.1 ++ r.1, acc.2 ++ r.2))
    ([], [])

/-- `Repository.getByQuery` (MySQL), SQL emission: template base (with the
source's literal newlines and indentation), fragments joined with ` AND `,
`ORDER BY` with the driver's identifier escaping, then the LIMIT tail. -/
def Mysql.getByQuerySql (tableName : String)
    (filterSortFields : List (String × FilterSortField))
    (conds : List QueryCondition) (sorts : List QuerySort)
    (limit offset : Option Int) : String :=
  let w := (Mysql.buildWhere filterSortFields conds).1
  let base :=
    "SELECT id,contents FROM " ++ escapeId tableName ++ "\n      "
      ++ (if w.length > 0 then "WHERE " ++ String.intercalate " AND " w else "")
      ++ "\n    "
  let afterSort :=
    if sorts.length > 0 then
      base ++ " ORDER BY "
        ++ String.intercalate ","
          (sorts.map (fun sort => escapeId sort.field ++ " " ++ sort.direction))
    else base
  afterSort ++ limitTail limit offset

/-- Modelled from the spec: `simplifyRelations` of one relation value; the
base repository (`src/database/entity-manager/repository.ts`) is absent from
the sources.  Spec 4.2: if the value is an object, replace it with the
object's id wrapped as an id reference; if it is a string, wrap it as an id
reference; for `multiple` relations apply this elementwise to the array. -/
def simplifyRelationValue (rel : Relation) (v : JsValue) : JsValue :=
  if rel.multiple then
    match v with
    | JsValue.arr xs =>
        JsValue.arr (xs.map (fun x =>
          match x with
          | JsValue.obj fields => JsValue.obj [("id", objGet fields "id")]
          | JsValue.str s => JsValue.obj [("id", JsValue.str s)]
          | other => other))
    | other => other
  else
    match v with
    | JsValue.obj fields => JsValue.obj [("id", objGet fields "id")]
    | JsValue.str s => JsValue.obj [("id", JsValue.str s)]
    | other => other

/-- Modelled from the spec: `simplifyRelations` of the base repository (its
file is absent from the sources).  Spec 4.2: "for each relation on the
entity", replace the relation field's value by its id reference; fields
that are not relation fields — the id included — pass through untouched. -/
def simplifyRelations (definition : EntityDefinition) (o : JsObject) : JsObject :=
  definition.relations.foldl
    (fun acc rel =>
      if objHasKey acc rel.field then
        objSet acc rel.field (simplifyRelationValue rel (objGet acc rel.field))
      else acc)
    o

/-- `Repository.create` (SQLite): the id column takes the caller's id when
it is a string and a generated short uuid otherwise; the `contents` column
serializes the template spread with the simplified input object.
`generatedId` stands for `shortUuid.generate()`. -/
def Sqlite.createRow (definition : EntityDefinition) (generatedId : String)
    (object : JsObject) : String × JsObject :=
  let uuid := match objGet object "id" with
    | JsValue.str s => s
    | _ => generatedId
  (uuid, spread definition.template (simplifyRelations definition object))

/-- `Repository.create` (MySQL): identical row construction — `INSERT ... SET
id = ?, contents = ?` with the same uuid choice and the same serialized
object. -/
def Mysql.createRow (definition : EntityDefinition) (generatedId : String)
    (object : JsObject) : String × JsObject :=
  let uuid := match objGet object "id" with
    | JsValue.str s => s
    | _ => generatedId
  (uuid, spread definition.template (simplifyRelations definition object))

/-- `Repository.update` (SQLite): the new `contents` is the simplified
object with `simplifiedObject.id = undefined` assigned before
`JSON.stringify` (stringify drops undefined-valued keys). -/
def Sqlite.updateContents (definition : EntityDefinition) (object : JsObject) :
    JsObject :=
  objSet (simplifyRelations definition object) "id" JsValue.undef

/-- `Repository.update` (MySQL): the new `contents` is the simplified object
with `delete simplifiedObject.id` applied before `JSON.stringify`. -/
def Mysql.updateContents (definition : EntityDefinition) (object : JsObject) :
    JsObject :=
  objDelete (simplifyRelations definition object) "id"

/-- Modelled from the spec: `fillInRelations` of the base repository (its
file is absent from the sources).  Spec 4.2: for each relation, resolve the
stored reference through the target repository; the lookup itself is
abstracted as `resolve`.  Non-relation fields pass through untouched. -/
def fillInRelations (resolve : Relation → JsValue → JsValue)
    (definition : EntityDefinition) (o : JsObject) : JsObject :=
  definition.relations.foldl
    (fun acc rel =>
      if objHasKey acc rel.field then
        objSet acc rel.field (resolve rel (objGet acc rel.field))
      else acc)
    o

/-- `Repository.transformQueryResultRow` (MySQL): hydrate a result row as
the template spread with the relation-expanded contents, then overlay the
authoritative `id` from the id column last. -/
def Mysql.transformQueryResultRow (resolve : Relation → JsValue → JsValue)
    (definition : EntityDefinition) (row : String × JsObject) : JsObject :=
  objSet (spread definition.template (fillInRelations resolve definition row.2))
    "id" (JsValue.str row.1)

/-- A DDL / DML operation the synchronizer executes, in emission order.
`createTable` carries the column definition strings and (MySQL) the inline
index specifications; `insertRow` records the re-inserted row's id (the
contents value is re-serialized from the hydrated row). -/
inductive DdlOp where
  | dropTableIfExists (table : String)
  | createTable (table : String) (columns : List String) (indexSpecs : List String)
  | createIndex (statement : String)
  | insertRow (table : String) (rowId : String)
  | dropTable (table : String)
  | renameTable (oldName newName : String)
deriving DecidableEq, Repr

/-- `filterSortFieldSqliteTypeMap`: field kind to SQLite column type. -/
def Sqlite.filterSortFieldSqliteTypeMap : FilterSortField → String
  | FilterSortField.string => "TEXT"
  | FilterSortField.number => "INTEGER"
  | FilterSortField.boolean => "INTEGER"

/-- `createGeneratedColumnExpression` (SQLite): the generated-column SQL for
a filterSortField.  The field name is interpolated into the JSON path and
the expression with no validation of any kind. -/
def Sqlite.createGeneratedColumnExpression (fieldName : String)
    (fieldType : FilterSortField) (entity : EntityDefinition) : String :=
  let jsonPath := "$." ++ fieldName
  match entity.relations.find? (fun rel => rel.field == fieldName) with
  | some rel =>
      if rel.multiple then
        "REPLACE(REPLACE(REPLACE(REPLACE(json_extract(contents, '" ++ jsonPath
          ++ "'), '[', ''), ']', ''), '\",\"', ','), '\"', '')"
      else
        "json_extract(contents, '" ++ jsonPath ++ "')"
  | none =>
      match fieldType with
      | FilterSortField.boolean =>
          "CAST(json_extract(contents, '" ++ jsonPath ++ "') AS INTEGER)"
      | FilterSortField.number =>
          "CAST(json_extract(contents, '" ++ jsonPath ++ "') AS INTEGER)"
      | FilterSortField.string =>
          "json_extract(contents, '" ++ jsonPath ++ "')"

/-- The column-definition and index-statement lists `migrateContentsColumn`
(SQLite) builds for the shadow table: base `id`/`contents` columns plus a
generated column and an `idx_<field>` index per filterSortField other than
`id`.  (The source's `TypeError` for an unrecognized field type cannot fire
here: `FilterSortField` enumerates exactly the recognized kinds.) -/
def Sqlite.migrationColumns (entity : EntityDefinition) (newTableName : String) :
    List String × List String :=
  let base := (["id TEXT PRIMARY KEY", "contents JSON NOT NULL"], ([] : List String))
  match entity.filterSortFields with
  | none => base
  | some fsf =>
      fsf.foldl
        (fun acc p =>
          if p.1 == "id" then acc
          else
            (acc.1 ++ ["\"" ++ p.1 ++ "\" " ++ Sqlite.filterSortFieldSqliteTypeMap p.2
               ++ " GENERATED ALWAYS AS ("
               ++ Sqlite.createGeneratedColumnExpression p.1 p.2 entity
               ++ ") STORED NULL"],
             acc.2 ++ ["CREATE INDEX IF NOT EXISTS idx_" ++ p.1 ++ " ON "
               ++ newTableName ++ "(\"" ++ p.1 ++ "\")"]))
        base

/-- The SQLite table's observable schema state plus its rows: the contents
column type as `pragma table_info` reports it, and the (id, hydrated entity)
rows `getAll` returns. -/
structure SqliteTableState where
  contentsType : String
  rows : List (String × JsObject)

/-- `migrateContentsColumn` (SQLite): when the contents column type is
legacy `TEXT`, drop any pre-existing `<table>_2` shadow, create the shadow
with the target schema (indexes emitted with it, the source iterates the
index list from the end), re-insert every source row through
`newRepository.create` (preserving each row's id, re-serializing contents),
drop the source table and rename the shadow; the result is the emitted
operations, the new state and whether migration occurred. -/
def Sqlite.migrateContentsColumn (entity : EntityDefinition) (tableName : String)
    (st : SqliteTableState) : List DdlOp × SqliteTableState × Bool :=
  if st.contentsType == "TEXT" then
    let newTableName := tableName ++ "_2"
    let cols := Sqlite.migrationColumns entity newTableName
    let ops :=
      [DdlOp.dropTableIfExists newTableName,
       DdlOp.createTable newTableName cols.1 []]
        ++ (cols.2.reverse.map DdlOp.createIndex)
        ++ (st.rows.map (fun row => DdlOp.insertRow newTableName row.1))
        ++ [DdlOp.dropTable tableName, DdlOp.renameTable newTableName tableName]
    (ops, { st with contentsType := "JSON" }, true)
  else
    ([], st, false)

/-- Whether a character may start an identifier: `[A-Za-z_]`. -/
def isIdentStart (c : Char) : Bool :=
  c.isAlpha || c == '_'

/-- Whether a character may continue an identifier: `[A-Za-z0-9_]`. -/
def isIdentChar (c : Char) : Bool :=
  c.isAlphanum || c == '_'

/-- The identifier regex of `validateFieldName` (MySQL):
a name matches `^[A-Za-z_][A-Za-z0-9_]*$` exactly when it is nonempty, its
first character is a letter or underscore and the rest are alphanumeric or
underscore. -/
def matchesIdentifierRegex (s : String) : Bool :=
  match s.data with
  | [] => false
  | c :: cs => isIdentStart c && cs.all isIdentChar

/-- The field names the SQLite migration builds `CREATE INDEX` statements
for: the keys of `filterSortFields` other than `id`, in declaration order
(the source executes the built statements from the end of the list). -/
def Sqlite.indexFields (entity : EntityDefinition) : List String :=
  match entity.filterSortFields with
  | none => []
  | some fsf => (fsf.filter (fun p => p.1 != "id")).map Prod.fst

/-- `connection.prepare(...).run()` for the migration's index statements.
The statement text is `CREATE INDEX IF NOT EXISTS idx_<field> ON
<table>_2("<field>")` with the index name interpolated unquoted, so
`prepare` accepts it only when `idx_<field>` lexes as a single identifier
(approximated by the `[A-Za-z_][A-Za-z0-9_]*` rule; SQLite additionally
allows `$` and non-ASCII letters, which no input here uses).  The loop
stops at the first statement the parser rejects, as the thrown
`SqliteError` (reported as a syntax error near the offending character)
aborts the sync; the result is the executed operations and the error, if
one was thrown. -/
def Sqlite.runIndexStatements (newTableName : String) :
    List String → List DdlOp × Option String
  | [] => ([], none)
  | fieldName :: rest =>
      let statement := "CREATE INDEX IF NOT EXISTS idx_" ++ fieldName ++ " ON "
        ++ newTableName ++ "(\"" ++ fieldName ++ "\")"
      if matchesIdentifierRegex ("idx_" ++ fieldName) then
        let r := Sqlite.runIndexStatements newTableName rest
        (DdlOp.createIndex statement :: r.1, r.2)
      else
        ([], some ("syntax error in " ++ statement))

/-- Execution of the SQLite contents migration: `Sqlite.migrateContentsColumn`
with `connection.prepare(...).run()` modelled as fallible.  The shadow drop
and the shadow `CREATE TABLE` run first; the index statements then run from
the end of the list and the first one whose unquoted `idx_<field>` name
fails to lex throws, aborting the sync after that partial DDL.  When every
statement is accepted the executed operations and the result agree with
`Sqlite.migrateContentsColumn`.  (The quoted identifiers of the other
statements and the table name, a slug, are never rejected.) -/
def Sqlite.runMigrateContentsColumn (entity : EntityDefinition) (tableName : String)
    (st : SqliteTableState) : List DdlOp × Except String (SqliteTableState × Bool) :=
  if st.contentsType == "TEXT" then
    let newTableName := tableName ++ "_2"
    let cols := Sqlite.migrationColumns entity newTableName
    let headOps := [DdlOp.dropTableIfExists newTableName,
                    DdlOp.createTable newTableName cols.1 []]
    let idx := Sqlite.runIndexStatements newTableName (Sqlite.indexFields entity).reverse
    match idx.2 with
    | some e => (headOps ++ idx.1, Except.error e)
    | none =>
        (headOps ++ idx.1
           ++ (st.rows.map (fun row => DdlOp.insertRow newTableName row.1))
           ++ [DdlOp.dropTable tableName, DdlOp.renameTable newTableName tableName],
         Except.ok ({ st with contentsType := "JSON" }, true))
  else
    ([], Except.ok (st, false))

/-- `validateFieldName` (MySQL): reject names failing the identifier regex
with the configuration error the source throws. -/
def Mysql.validateFieldName (fieldName : String) : Except String Unit :=
  if matchesIdentifierRegex fieldName then Except.ok ()
  else
    Except.error ("Invalid field name \"" ++ fieldName
      ++ "\". Field names must match /^[A-Za-z_][A-Za-z0-9_]*$/")

/-- `filterSortFieldTypeMap` (MySQL): field kind to MySQL column type. -/
def Mysql.filterSortFieldTypeMap : FilterSortField → String
  | FilterSortField.string => "varchar(255)"
  | FilterSortField.number => "int(11)"
  | FilterSortField.boolean => "tinyint(4)"

/-- `createGeneratedColumnExpression` (MySQL): validate the field name
first, then build the engine-specific JSON extraction expression. -/
def Mysql.createGeneratedColumnExpression (fieldName : String)
    (fieldType : FilterSortField) (entity : EntityDefinition) :
    Except String String := do
  Mysql.validateFieldName fieldName
  let jsonPath := "$." ++ fieldName
  match entity.relations.find? (fun rel => rel.field == fieldName) with
  | some rel =>
      if rel.multiple then
        pure ("REPLACE(REPLACE(REPLACE(REPLACE(JSON_UNQUOTE(JSON_EXTRACT(contents, '"
          ++ jsonPath ++ "')), '[', ''), ']', ''), '\",\"', ','), '\"', '')")
      else
        pure ("JSON_UNQUOTE(JSON_EXTRACT(contents, '" ++ jsonPath ++ "'))")
  | none =>
      match fieldType with
      | FilterSortField.boolean =>
          let extractExpr := "JSON_EXTRACT(contents, '" ++ jsonPath ++ "')"
          pure ("CASE \n      WHEN JSON_TYPE(" ++ extractExpr
            ++ ") = 'NULL' THEN NULL\n      WHEN JSON_TYPE(" ++ extractExpr
            ++ ") = 'BOOLEAN' THEN IF(LOWER(JSON_UNQUOTE(" ++ extractExpr
            ++ ")) = 'true', 1, 0)\n      WHEN LOWER(JSON_UNQUOTE(" ++ extractExpr
            ++ ")) = 'true' THEN 1\n      WHEN LOWER(JSON_UNQUOTE(" ++ extractExpr
            ++ ")) = 'false' THEN 0\n      ELSE 0\n    END")
      | FilterSortField.number =>
          pure ("CAST(JSON_EXTRACT(contents, '" ++ jsonPath ++ "') AS SIGNED)")
      | FilterSortField.string =>
          let extractExpr := "JSON_EXTRACT(contents, '" ++ jsonPath ++ "')"
          pure ("IF(JSON_TYPE(" ++ extractExpr ++ ") = 'NULL', NULL, JSON_UNQUOTE("
            ++ extractExpr ++ "))")

/-- The inline index specification of the MySQL shadow-table CREATE: string
fields get a `(191)` prefix length. -/
def Mysql.indexSpec (entity : EntityDefinition) (fieldName : String) : String :=
  "INDEX(" ++ escapeId fieldName
    ++ (if (entity.filterSortFields.getD []).lookup fieldName
          = some FilterSortField.string then "(191)" else "")
    ++ ")"

/-- The column definitions and index fields `migrateContentsColumn` (MySQL)
builds for the shadow table.  Every non-`id` field's expression is built —
and its name validated — before any DDL is executed; a validation failure
therefore aborts the migration before any operation is emitted. -/
def Mysql.migrationColumns (entity : EntityDefinition) :
    Except String (List String × List String) :=
  let base := (["id VARCHAR(32) PRIMARY KEY", "contents JSON NOT NULL"],
               ([] : List String))
  match entity.filterSortFields with
  | none => Except.ok base
  | some fsf =>
      fsf.foldlM
        (fun acc p =>
          if p.1 == "id" then pure acc
          else do
            let expression ← Mysql.createGeneratedColumnExpression p.1 p.2 entity
            pure (acc.1 ++ [escapeId p.1 ++ " " ++ Mysql.filterSortFieldTypeMap p.2
                    ++ " GENERATED ALWAYS AS (" ++ expression ++ ") STORED"],
                  acc.2 ++ [p.1]))
        base

/-- The MySQL table's observable schema state: what INFORMATION_SCHEMA
reports for the contents column (`COLUMN_TYPE`, `DATA_TYPE`, whether a
`JSON_VALID(contents)` check constraint exists and whether the
CHECK_CONSTRAINTS query fails on this server), plus the rows. -/
structure MysqlTableState where
  columnType : String
  dataType : String
  hasJsonValidConstraint : Bool
  checkConstraintsQueryFails : Bool
  rows : List (String × JsObject)

/-- Whether `pat` occurs in `s` as a contiguous substring (JS
`String.prototype.includes`). -/
def containsSubstringAux (pat : List Char) : List Char → Bool
  | [] => pat.isPrefixOf ([] : List Char)
  | c :: rest => pat.isPrefixOf (c :: rest) || containsSubstringAux pat rest

/-- JS `columnType.includes('json')` and friends. -/
def containsSubstring (s pat : String) : Bool :=
  containsSubstringAux pat.data s.data

/-- JS `toLowerCase`, written over the character list so that it reduces
definitionally. -/
def toLowerStr (s : String) : String :=
  String.mk (s.data.map Char.toLower)

/-- `getContentsColumnType` (MySQL): `json` when COLUMN_TYPE contains
`json`; for `longtext` DATA_TYPE, `json` when the CHECK_CONSTRAINTS lookup
succeeds and finds a `JSON_VALID` constraint on contents, otherwise the
data type itself (also when the lookup fails); otherwise the data type. -/
def Mysql.getContentsColumnType (st : MysqlTableState) : String :=
  let columnType := toLowerStr st.columnType
  let dataType := toLowerStr st.dataType
  if containsSubstring columnType "json" then "json"
  else if dataType == "longtext" then
    if !st.checkConstraintsQueryFails && st.hasJsonValidConstraint then "json"
    else dataType
  else dataType

/-- `migrateContentsColumn` (MySQL): when the detected contents type is
`text` or `longtext`, build the shadow schema (validating every field name
before any DDL), drop any pre-existing `<table>_2` shadow, create the
shadow with its inline indexes, re-insert every source row's id with the
re-serialized contents, drop the source and rename the shadow.  After the
rename the contents column is a JSON column, so INFORMATION_SCHEMA reports
`json` for it. -/
def Mysql.migrateContentsColumn (entity : EntityDefinition) (tableName : String)
    (st : MysqlTableState) : Except String (List DdlOp × MysqlTableState × Bool) := do
  let contentsType := Mysql.getContentsColumnType st
  if contentsType == "text" || contentsType == "longtext" then
    let newTableName := tableName ++ "_2"
    let cols ← Mysql.migrationColumns entity
    let ops :=
      [DdlOp.dropTableIfExists newTableName,
       DdlOp.createTable newTableName cols.1 (cols.2.map (Mysql.indexSpec entity))]
        ++ (st.rows.map (fun row => DdlOp.insertRow newTableName row.1))
        ++ [DdlOp.dropTable tableName, DdlOp.renameTable newTableName tableName]
    pure (ops,
      { st with columnType := "json", dataType := "json",
                hasJsonValidConstraint := false }, true)
  else
    pure ([], st, false)

/-- A `HookError`: message plus optional HTTP status code. -/
structure HookError where
  message : String
  statusCode : Option Nat
deriving DecidableEq, Repr

/-- The API error statuses the delete action maps hook failures onto. -/
inductive ApiStatus where
  | badRequest
  | unauthorized
  | forbidden
  | notFound
  | internalServerError
deriving DecidableEq, Repr

/-- The status mapping of the delete action's hook-error handler:
400/401/403/404 map to their named statuses, everything else (the absent
code included, via the `?? 500` default) to internal server error. -/
def statusForCode (code : Nat) : ApiStatus :=
  if code = 400 then ApiStatus.badRequest
  else if code = 401 then ApiStatus.unauthorized
  else if code = 403 then ApiStatus.forbidden
  else if code = 404 then ApiStatus.notFound
  else ApiStatus.internalServerError

/-- The response of the delete action: `204 No Content` or a thrown API
error with its status and message. -/
inductive DeleteResponse where
  | noContent204
  | apiError (status : ApiStatus) (message : String)
deriving DecidableEq, Repr

/-- A collection as the delete action sees it: for each entry of
`collection.hooks`, the optional `deleteBefore` hook, embedded by the
result its invocation produces on this request. -/
structure DeleteCollection where
  hooksDeleteBefore : List (Option (Except HookError Unit))

/-- Run the `deleteBefore` hooks in order; the first failure wins. -/
def runDeleteHooks : List (Except HookError Unit) → Except HookError Unit
  | [] => Except.ok ()
  | Except.error e :: _ => Except.error e
  | Except.ok () :: rest => runDeleteHooks rest

/-- The stored rows as the delete action sees them: id to contents object. -/
abbrev StoredRows := List (String × JsObject)

/-- The HTTP `DELETE /<col>/:id` action (`deleteById`): when at least one
`deleteBefore` hook is registered, a missing row throws NOT_FOUND and a
failing hook throws its mapped status; otherwise (and on the success path)
`deleteUsingId` runs and the response is 204, whether or not a row
existed. -/
def deleteById (collection : DeleteCollection) (rows : StoredRows) (id : String) :
    DeleteResponse × StoredRows :=
  let deleteHooks := collection.hooksDeleteBefore.filterMap (fun h => h)
  if deleteHooks.length > 0 then
    match rows.lookup id with
    | none => (DeleteResponse.apiError ApiStatus.notFound "Not found", rows)
    | some _ =>
        match runDeleteHooks deleteHooks with
        | Except.error e =>
            (DeleteResponse.apiError (statusForCode (e.statusCode.getD 500))
               e.message, rows)
        | Except.ok () =>
            (DeleteResponse.noContent204, rows.filter (fun r => r.1 != id))
  else
    (DeleteResponse.noContent204, rows.filter (fun r => r.1 != id))

/-- Helper: deleting by id twice filters exactly as deleting once. -/
theorem filter_ne_id_idem (rows : TableRows) (id : String) :
    (rows.filter (fun r => r.1 != id)).filter (fun r => r.1 != id)
      = rows.filter (fun r => r.1 != id) := by
  induction rows with
  | nil => rfl
  | cons hd tl ih =>
      by_cases h : hd.1 = id
      · simp [List.filter_cons, h, ih]
      · simp [List.filter_cons, h, ih]

/-- Helper: deleting an id that no row carries keeps every row. -/
theorem filter_ne_id_of_not_mem (rows : TableRows) (id : String)
    (h : id ∉ rows.map Prod.fst) :
    rows.filter (fun r => r.1 != id) = rows := by
  refine List.filter_eq_self.mpr ?_
  intro r hr
  simp only [bne_iff_ne, ne_eq]
  intro e
  exact h (by simpa [e] using List.mem_map_of_mem Prod.fst hr)

/-- C7: `deleteUsingId` is idempotent on both engines — for every table and
every id, present or absent, deleting the same id twice leaves the same
rows as deleting it once — and deleting an id that is absent from the table
leaves the rows unchanged; the operation is total, so it succeeds rather
than erroring on an absent id. -/
theorem deleteUsingId_idempotent_noop (rows : TableRows) (id : String) :
    Sqlite.deleteUsingId (Sqlite.deleteUsingId rows id) id
      = Sqlite.deleteUsingId rows id
  ∧ Mysql.deleteUsingId (Mysql.deleteUsingId rows id) id
      = Mysql.deleteUsingId rows id
  ∧ (id ∉ rows.map Prod.fst →
       Sqlite.deleteUsingId rows id = rows ∧ Mysql.deleteUsingId rows id = rows) := by
  refine ⟨filter_ne_id_idem rows id, filter_ne_id_idem rows id, fun h => ?_⟩
  exact ⟨filter_ne_id_of_not_mem rows id h, filter_ne_id_of_not_mem rows id h⟩

/-- Witness for C7: the idempotence conjuncts exercised at an id that is
present in a two-row table (the first call really deletes a row), and the
absent-id no-op exercised at an id no row carries. -/
theorem deleteUsingId_idempotent_noop_witness :
    (Sqlite.deleteUsingId (Sqlite.deleteUsingId [("a1", "c1"), ("b2", "c2")] "a1") "a1"
       = Sqlite.deleteUsingId [("a1", "c1"), ("b2", "c2")] "a1"
     ∧ Mysql.deleteUsingId (Mysql.deleteUsingId [("a1", "c1"), ("b2", "c2")] "a1") "a1"
       = Mysql.deleteUsingId [("a1", "c1"), ("b2", "c2")] "a1"
     ∧ (("a1" : String) ∉ ([("a1", "c1"), ("b2", "c2")] : TableRows).map Prod.fst →
          Sqlite.deleteUsingId [("a1", "c1"), ("b2", "c2")] "a1"
            = [("a1", "c1"), ("b2", "c2")]
        ∧ Mysql.deleteUsingId [("a1", "c1"), ("b2", "c2")] "a1"
            = [("a1", "c1"), ("b2", "c2")]))
  ∧ Sqlite.deleteUsingId [("a1", "c1"), ("b2", "c2")] "a1" = [("b2", "c2")]
  ∧ ("zz" : String) ∉ ([("a1", "c1")] : TableRows).map Prod.fst
  ∧ Sqlite.deleteUsingId [("a1", "c1")] "zz" = [("a1", "c1")]
  ∧ Mysql.deleteUsingId [("a1", "c1")] "zz" = [("a1", "c1")] :=
  ⟨deleteUsingId_idempotent_noop [("a1", "c1"), ("b2", "c2")] "a1",
   rfl,
   by decide,
   ((deleteUsingId_idempotent_noop [("a1", "c1")] "zz").2.2 (by decide)).1,
   ((deleteUsingId_idempotent_noop [("a1", "c1")] "zz").2.2 (by decide)).2⟩

/-- C10: the repository registry key is `namespace + "_" + name` when a
namespace is defined and the bare name otherwise, so the pairs
(name `b`, namespace `a`) and (name `a_b`, no namespace) share the key
`a_b` and `getRepository` resolves both to the same repository. -/
theorem registry_key_collision :
    getFullEntityName "b" (some "a") = "a_b"
  ∧ getFullEntityName "a_b" none = "a_b"
  ∧ ∀ repositories : List (String × Nat),
      getRepository repositories "b" (some "a")
        = getRepository repositories "a_b" none :=
  ⟨rfl, rfl, fun _ => rfl⟩

/-- C6: every predicate method of the query builder and `sort` reject a
field that is not in the query's `filterSortFields` map: the call returns
the thrown configuration error and the builder state — condition list,
pending group and sort list — is exactly the state before the call. -/
theorem unknown_field_build_error (q : Query) (field : String) (value : JsValue)
    (likeValue : String) (inValue : List JsValue) (direction : String)
    (h : q.filterSortFields.lookup field = none) :
    (q.eq field value).1 = q ∧ ((q.eq field value).2).isSome = true
  ∧ (q.gt field value).1 = q ∧ ((q.gt field value).2).isSome = true
  ∧ (q.gte field value).1 = q ∧ ((q.gte field value).2).isSome = true
  ∧ (q.lt field value).1 = q ∧ ((q.lt field value).2).isSome = true
  ∧ (q.lte field value).1 = q ∧ ((q.lte field value).2).isSome = true
  ∧ (q.like field likeValue).1 = q ∧ ((q.like field likeValue).2).isSome = true
  ∧ (q.inOp field inValue).1 = q ∧ ((q.inOp field inValue).2).isSome = true
  ∧ (q.sort field direction).1 = q ∧ ((q.sort field direction).2).isSome = true := by
  simp [Query.eq, Query.gt, Query.gte, Query.lt, Query.lte, Query.like,
    Query.inOp, Query.sort, Query.addFilter, h]

/-- Witness for C6: a query knowing only `name`, filtered and sorted on the
unknown field `distance`. -/
theorem unknown_field_build_error_witness :
    (Query.mk [("name", FilterSortField.string)] [] none [] none none).filterSortFields.lookup "distance" = none
  ∧ (((Query.mk [("name", FilterSortField.string)] [] none [] none none).eq "distance" (JsValue.num 1)).1
       = Query.mk [("name", FilterSortField.string)] [] none [] none none
     ∧ (((Query.mk [("name", FilterSortField.string)] [] none [] none none).eq "distance" (JsValue.num 1)).2).isSome = true
  ∧ ((Query.mk [("name", FilterSortField.string)] [] none [] none none).gt "distance" (JsValue.num 1)).1
       = Query.mk [("name", FilterSortField.string)] [] none [] none none
     ∧ (((Query.mk [("name", FilterSortField.string)] [] none [] none none).gt "distance" (JsValue.num 1)).2).isSome = true
  ∧ ((Query.mk [("name", FilterSortField.string)] [] none [] none none).gte "distance" (JsValue.num 1)).1
       = Query.mk [("name", FilterSortField.string)] [] none [] none none
     ∧ (((Query.mk [("name", FilterSortField.string)] [] none [] none none).gte "distance" (JsValue.num 1)).2).isSome = true
  ∧ ((Query.mk [("name", FilterSortField.string)] [] none [] none none).lt "distance" (JsValue.num 1)).1
       = Query.mk [("name", FilterSortField.string)] [] none [] none none
     ∧ (((Query.mk [("name", FilterSortField.string)] [] none [] none none).lt "distance" (JsValue.num 1)).2).isSome = true
  ∧ ((Query.mk [("name", FilterSortField.string)] [] none [] none none).lte "distance" (JsValue.num 1)).1
       = Query.mk [("name", FilterSortField.string)] [] none [] none none
     ∧ (((Query.mk [("name", FilterSortField.string)] [] none [] none none).lte "distance" (JsValue.num 1)).2).isSome = true
  ∧ ((Query.mk [("name", FilterSortField.string)] [] none [] none none).like "distance" "x").1
       = Query.mk [("name", FilterSortField.string)] [] none [] none none
     ∧ (((Query.mk [("name", FilterSortField.string)] [] none [] none none).like "distance" "x").2).isSome = true
  ∧ ((Query.mk [("name", FilterSortField.string)] [] none [] none none).inOp "distance" []).1
       = Query.mk [("name", FilterSortField.string)] [] none [] none none
     ∧ (((Query.mk [("name", FilterSortField.string)] [] none [] none none).inOp "distance" []).2).isSome = true
  ∧ ((Query.mk [("name", FilterSortField.string)] [] none [] none none).sort "distance" "asc").1
       = Query.mk [("name", FilterSortField.string)] [] none [] none none
     ∧ (((Query.mk [("name", FilterSortField.string)] [] none [] none none).sort "distance" "asc").2).isSome = true) :=
  ⟨rfl, unknown_field_build_error
    (Query.mk [("name", FilterSortField.string)] [] none [] none none)
    "distance" (JsValue.num 1) "x" [] "asc" rfl⟩

/-- C1: evaluation of the code at the failing input.  With an explicit id on
the input object, `create` on both engines serializes the id into the
`contents` column (the serialized key set is `id, name`), while `update` on
the same object does strip the id before serialisation, and read-time
hydration overlays the id column over whatever the stored contents held.
The stored row of such a `create` therefore carries the id twice. -/
theorem create_contents_retains_explicit_id :
    jsonKeys (Sqlite.createRow { name := "planet" } "gen1"
        [("id", JsValue.str "x1"), ("name", JsValue.str "Earth")]).2
      = ["id", "name"]
  ∧ (Sqlite.createRow { name := "planet" } "gen1"
        [("id", JsValue.str "x1"), ("name", JsValue.str "Earth")]).1 = "x1"
  ∧ jsonKeys (Mysql.createRow { name := "planet" } "gen1"
        [("id", JsValue.str "x1"), ("name", JsValue.str "Earth")]).2
      = ["id", "name"]
  ∧ jsonKeys (Sqlite.updateContents { name := "planet" }
        [("id", JsValue.str "x1"), ("name", JsValue.str "Earth")])
      = ["name"]
  ∧ jsonKeys (Mysql.updateContents { name := "planet" }
        [("id", JsValue.str "x1"), ("name", JsValue.str "Earth")])
      = ["name"]
  ∧ objGet (Mysql.transformQueryResultRow (fun _ v => v) { name := "planet" }
        ("x1", [("id", JsValue.str "zzz"), ("name", JsValue.str "Earth")])) "id"
      = JsValue.str "x1" :=
  ⟨rfl, rfl, rfl, rfl, rfl, rfl⟩

/-- C2: evaluation of the code at the failing input.  On a top-level OR
group, the MySQL `getByQuery` treats the group object as a plain filter:
its missing `field` and `operator` properties read as `undefined`, so the
emitted fragment is the invalid text below and the bound value is
`undefined` — while the SQLite `buildWhereClause` translates the same group
recursively into the parenthesized OR of its children. -/
theorem mysql_getByQuery_flattens_logical_group :
    Mysql.whereForCondition [("name", FilterSortField.string)]
        (QueryCondition.group LogicalOperator.or
          [QueryCondition.filter QueryOperator.equals "name" (JsValue.str "Earth"),
           QueryCondition.filter QueryOperator.equals "name" (JsValue.str "Mars")])
      = (["`undefined` undefined ?"], [JsValue.undef])
  ∧ Sqlite.buildWhereClause [("name", FilterSortField.string)]
        (QueryCondition.group LogicalOperator.or
          [QueryCondition.filter QueryOperator.equals "name" (JsValue.str "Earth"),
           QueryCondition.filter QueryOperator.equals "name" (JsValue.str "Mars")])
      = ("(\"name\" = ? OR \"name\" = ?)", [JsValue.str "Earth", JsValue.str "Mars"]) :=
  ⟨rfl, rfl⟩

/-- C3: evaluation of the code at the failing input.  Neither engine
short-circuits an IN predicate over the empty list: SQLite emits the
fragment `"name" IN ()` (which SQLite happens to accept and evaluate to
zero matches) and MySQL emits `` `name` IN() `` (a MySQL syntax error), in
both cases binding no values. -/
theorem empty_in_emits_in_parens :
    Sqlite.buildWhereClause [("name", FilterSortField.string)]
        (QueryCondition.filter QueryOperator.inOp "name" (JsValue.arr []))
      = ("\"name\" IN ()", [])
  ∧ Mysql.whereForCondition [("name", FilterSortField.string)]
        (QueryCondition.filter QueryOperator.inOp "name" (JsValue.arr []))
      = (["`name` IN()"], []) :=
  ⟨rfl, rfl⟩

/-- C9: on both engines `getByQuery` appends a LIMIT clause only when the
limit is a nonzero number.  With the limit unset or set to 0 the emitted
SQL equals the SQL of the query with no limit and no offset — no LIMIT
clause, the offset ignored — and with a nonzero limit and an offset set the
emitted SQL is that base followed by ` LIMIT <offset>,<limit>`. -/
theorem limit_clause_emission (tableName : String)
    (filterSortFields : List (String × FilterSortField))
    (conds : List QueryCondition) (sorts : List QuerySort)
    (offset : Option Int) (n o : Int) (hn : n ≠ 0) :
    Sqlite.getByQuerySql tableName filterSortFields conds sorts none offset
      = Sqlite.getByQuerySql tableName filterSortFields conds sorts none none
  ∧ Sqlite.getByQuerySql tableName filterSortFields conds sorts (some 0) offset
      = Sqlite.getByQuerySql tableName filterSortFields conds sorts none none
  ∧ Sqlite.getByQuerySql tableName filterSortFields conds sorts (some n) (some o)
      = Sqlite.getByQuerySql tableName filterSortFields conds sorts none none
          ++ (" LIMIT " ++ (toString o ++ "," ++ toString n))
  ∧ Mysql.getByQuerySql tableName filterSortFields conds sorts none offset
      = Mysql.getByQuerySql tableName filterSortFields conds sorts none none
  ∧ Mysql.getByQuerySql tableName filterSortFields conds sorts (some 0) offset
      = Mysql.getByQuerySql tableName filterSortFields conds sorts none none
  ∧ Mysql.getByQuerySql tableName filterSortFields conds sorts (some n) (some o)
      = Mysql.getByQuerySql tableName filterSortFields conds sorts none none
          ++ (" LIMIT " ++ (toString o ++ "," ++ toString n)) := by
  have ht : truthyNum (some n) = true := by simp [truthyNum, hn]
  refine ⟨rfl, rfl, ?_, rfl, rfl, ?_⟩
  · simp [Sqlite.getByQuerySql, limitTail, ht, truthyNum, jsNumberText, hn,
      String.append_assoc, String.empty_append]
  · simp [Mysql.getByQuerySql, limitTail, ht, truthyNum, jsNumberText, hn,
      String.append_assoc, String.empty_append]

/-- Witness for C9 at limit 5 and offset 10 on a bare query. -/
theorem limit_clause_emission_witness :
    (5 : Int) ≠ 0
  ∧ (Sqlite.getByQuerySql "planet" [] [] [] none (some 10)
       = Sqlite.getByQuerySql "planet" [] [] [] none none
     ∧ Sqlite.getByQuerySql "planet" [] [] [] (some 0) (some 10)
       = Sqlite.getByQuerySql "planet" [] [] [] none none
     ∧ Sqlite.getByQuerySql "planet" [] [] [] (some 5) (some 10)
       = Sqlite.getByQuerySql "planet" [] [] [] none none
           ++ (" LIMIT " ++ (toString (10 : Int) ++ "," ++ toString (5 : Int)))
     ∧ Mysql.getByQuerySql "planet" [] [] [] none (some 10)
       = Mysql.getByQuerySql "planet" [] [] [] none none
     ∧ Mysql.getByQuerySql "planet" [] [] [] (some 0) (some 10)
       = Mysql.getByQuerySql "planet" [] [] [] none none
     ∧ Mysql.getByQuerySql "planet" [] [] [] (some 5) (some 10)
       = Mysql.getByQuerySql "planet" [] [] [] none none
           ++ (" LIMIT " ++ (toString (10 : Int) ++ "," ++ toString (5 : Int)))) :=
  ⟨by decide, limit_clause_emission "planet" [] [] [] (some 10) 5 10 (by decide)⟩

/-- C8 counterexample: with a `deleteBefore` hook registered the action does
not answer 204 — an absent id is answered with the thrown NOT_FOUND error,
and a hook throwing `HookError('Test', 401)` on an existing row is answered
with the unauthorized error, the row kept. -/
theorem delete_with_hook_not_204 :
    deleteById { hooksDeleteBefore := [some (Except.ok ())] } [] "foo"
      = (DeleteResponse.apiError ApiStatus.notFound "Not found", [])
  ∧ deleteById
        { hooksDeleteBefore :=
            [some (Except.error { message := "Test", statusCode := some 401 })] }
        [("x1", [])] "x1"
      = (DeleteResponse.apiError ApiStatus.unauthorized "Test", [("x1", [])]) :=
  ⟨rfl, rfl⟩

/-- C8 as amended: the DELETE action answers 204 — even for an absent id —
for every collection with no `deleteBefore` hook; when such hooks are
registered, an absent id is answered with a NOT_FOUND error and the rows
are untouched, while an existing row whose hooks all succeed is answered
204 with the row deleted. -/
theorem delete_status_by_hooks (collection : DeleteCollection) (rows : StoredRows)
    (id : String) (contents : JsObject) :
    (collection.hooksDeleteBefore.filterMap (fun h => h) = [] →
        deleteById collection rows id
          = (DeleteResponse.noContent204, rows.filter (fun r => r.1 != id)))
  ∧ (collection.hooksDeleteBefore.filterMap (fun h => h) ≠ [] →
        rows.lookup id = none →
        deleteById collection rows id
          = (DeleteResponse.apiError ApiStatus.notFound "Not found", rows))
  ∧ (collection.hooksDeleteBefore.filterMap (fun h => h) ≠ [] →
        rows.lookup id = some contents →
        runDeleteHooks (collection.hooksDeleteBefore.filterMap (fun h => h))
          = Except.ok () →
        deleteById collection rows id
          = (DeleteResponse.noContent204, rows.filter (fun r => r.1 != id))) := by
  refine ⟨?_, ?_, ?_⟩
  · intro h1
    simp [deleteById, h1]
  · intro h1 h2
    have hl : 0 < (collection.hooksDeleteBefore.filterMap (fun h => h)).length :=
      List.length_pos.mpr h1
    simp [deleteById, h2, hl]
  · intro h1 h2 h3
    have hl : 0 < (collection.hooksDeleteBefore.filterMap (fun h => h)).length :=
      List.length_pos.mpr h1
    simp [deleteById, h2, h3, hl]

/-- Witness for C8's amended theorem: a hook that succeeds, an existing
row; the action answers 204 and deletes the row. -/
theorem delete_status_by_hooks_witness :
    (([some (Except.ok ())] : List (Option (Except HookError Unit))).filterMap
        (fun h => h) ≠ [])
  ∧ (([(("x1" : String), ([] : JsObject))].lookup "x1") = some [])
  ∧ (runDeleteHooks
        (([some (Except.ok ())] : List (Option (Except HookError Unit))).filterMap
          (fun h => h)) = Except.ok ())
  ∧ deleteById { hooksDeleteBefore := [some (Except.ok ())] } [("x1", [])] "x1"
      = (DeleteResponse.noContent204, [("x1", [])].filter (fun r => r.1 != "x1")) :=
  ⟨by simp, rfl, rfl,
   (delete_status_by_hooks { hooksDeleteBefore := [some (Except.ok ())] }
       [("x1", [])] "x1" []).2.2 (by simp) rfl rfl⟩

/-- C4: on both engines a legacy contents column is migrated by dropping any
pre-existing `<table>_2` shadow first, creating the shadow with the target
schema (indexes emitted with the shadow table), re-inserting each source
row (its id with its re-serialized contents) in order, dropping the source
table and renaming the shadow to the original name; the resulting contents
column type is JSON, so running the migration again on the resulting table
detects JSON and performs no operation — the migration runs at most once
per table. -/
theorem migrateContentsColumn_once (entity : EntityDefinition) (tableName : String)
    (sst : SqliteTableState) (mst : MysqlTableState)
    (cols : List String × List String)
    (hs : sst.contentsType = "TEXT")
    (hm : Mysql.getContentsColumnType mst = "text"
          ∨ Mysql.getContentsColumnType mst = "longtext")
    (hc : Mysql.migrationColumns entity = Except.ok cols) :
    Sqlite.migrateContentsColumn entity tableName sst
      = ([DdlOp.dropTableIfExists (tableName ++ "_2"),
          DdlOp.createTable (tableName ++ "_2")
            (Sqlite.migrationColumns entity (tableName ++ "_2")).1 []]
           ++ ((Sqlite.migrationColumns entity (tableName ++ "_2")).2.reverse.map
                 DdlOp.createIndex)
           ++ (sst.rows.map (fun row => DdlOp.insertRow (tableName ++ "_2") row.1))
           ++ [DdlOp.dropTable tableName,
               DdlOp.renameTable (tableName ++ "_2") tableName],
         { sst with contentsType := "JSON" }, true)
  ∧ Sqlite.migrateContentsColumn entity tableName { sst with contentsType := "JSON" }
      = ([], { sst with contentsType := "JSON" }, false)
  ∧ Mysql.migrateContentsColumn entity tableName mst
      = Except.ok
          ([DdlOp.dropTableIfExists (tableName ++ "_2"),
            DdlOp.createTable (tableName ++ "_2") cols.1
              (cols.2.map (Mysql.indexSpec entity))]
             ++ (mst.rows.map (fun row => DdlOp.insertRow (tableName ++ "_2") row.1))
             ++ [DdlOp.dropTable tableName,
                 DdlOp.renameTable (tableName ++ "_2") tableName],
           { mst with columnType := "json", dataType := "json",
                      hasJsonValidConstraint := false }, true)
  ∧ Mysql.migrateContentsColumn entity tableName
        { mst with columnType := "json", dataType := "json",
                   hasJsonValidConstraint := false }
      = Except.ok
          ([], { mst with columnType := "json", dataType := "json",
                          hasJsonValidConstraint := false }, false) := by
  have hcond : (Mysql.getContentsColumnType mst == "text"
      || Mysql.getContentsColumnType mst == "longtext") = true := by
    rcases hm with h | h <;> simp [h]
  refine ⟨?_, ?_, ?_, ?_⟩
  · simp [Sqlite.migrateContentsColumn, hs]
  · rfl
  · simp only [Mysql.migrateContentsColumn, hcond, hc, if_true, Except.bind,
      bind, pure]
    rfl
  · rfl

/-- The planet entity of the C4 witness scenario. -/
def planetEntityC4 : EntityDefinition :=
  { name := "planet",
    filterSortFields := some [("name", FilterSortField.string)] }

/-- The legacy SQLite table of the C4 witness scenario. -/
def planetSqliteLegacy : SqliteTableState :=
  { contentsType := "TEXT", rows := [("a1", [("name", JsValue.str "Earth")])] }

/-- The legacy MySQL table of the C4 witness scenario (a plain LONGTEXT
contents column, no JSON_VALID constraint). -/
def planetMysqlLegacy : MysqlTableState :=
  { columnType := "longtext", dataType := "longtext",
    hasJsonValidConstraint := false, checkConstraintsQueryFails := false,
    rows := [("a1", [("name", JsValue.str "Earth")])] }

/-- The shadow-table columns the MySQL migration builds for the C4 witness. -/
def planetMysqlCols : List String × List String :=
  (["id VARCHAR(32) PRIMARY KEY", "contents JSON NOT NULL",
    "`name` varchar(255) GENERATED ALWAYS AS (IF(JSON_TYPE(JSON_EXTRACT(contents, '$.name')) = 'NULL', NULL, JSON_UNQUOTE(JSON_EXTRACT(contents, '$.name')))) STORED"],
   ["name"])

/-- Witness for C4 at the concrete planet entity over legacy tables. -/
theorem migrateContentsColumn_once_witness :
    planetSqliteLegacy.contentsType = "TEXT"
  ∧ (Mysql.getContentsColumnType planetMysqlLegacy = "text"
       ∨ Mysql.getContentsColumnType planetMysqlLegacy = "longtext")
  ∧ Mysql.migrationColumns planetEntityC4 = Except.ok planetMysqlCols
  ∧ (Sqlite.migrateContentsColumn planetEntityC4 "planet" planetSqliteLegacy
      = ([DdlOp.dropTableIfExists ("planet" ++ "_2"),
          DdlOp.createTable ("planet" ++ "_2")
            (Sqlite.migrationColumns planetEntityC4 ("planet" ++ "_2")).1 []]
           ++ ((Sqlite.migrationColumns planetEntityC4 ("planet" ++ "_2")).2.reverse.map
                 DdlOp.createIndex)
           ++ (planetSqliteLegacy.rows.map
                 (fun row => DdlOp.insertRow ("planet" ++ "_2") row.1))
           ++ [DdlOp.dropTable "planet",
               DdlOp.renameTable ("planet" ++ "_2") "planet"],
         { planetSqliteLegacy with contentsType := "JSON" }, true)
  ∧ Sqlite.migrateContentsColumn planetEntityC4 "planet"
        { planetSqliteLegacy with contentsType := "JSON" }
      = ([], { planetSqliteLegacy with contentsType := "JSON" }, false)
  ∧ Mysql.migrateContentsColumn planetEntityC4 "planet" planetMysqlLegacy
      = Except.ok
          ([DdlOp.dropTableIfExists ("planet" ++ "_2"),
            DdlOp.createTable ("planet" ++ "_2") planetMysqlCols.1
              (planetMysqlCols.2.map (Mysql.indexSpec planetEntityC4))]
             ++ (planetMysqlLegacy.rows.map
                   (fun row => DdlOp.insertRow ("planet" ++ "_2") row.1))
             ++ [DdlOp.dropTable "planet",
                 DdlOp.renameTable ("planet" ++ "_2") "planet"],
           { planetMysqlLegacy with columnType := "json", dataType := "json",
                                    hasJsonValidConstraint := false }, true)
  ∧ Mysql.migrateContentsColumn planetEntityC4 "planet"
        { planetMysqlLegacy with columnType := "json", dataType := "json",
                                 hasJsonValidConstraint := false }
      = Except.ok
          ([], { planetMysqlLegacy with columnType := "json", dataType := "json",
                                        hasJsonValidConstraint := false }, false)) :=
  ⟨rfl, Or.inr rfl, rfl,
   migrateContentsColumn_once planetEntityC4 "planet" planetSqliteLegacy
     planetMysqlLegacy planetMysqlCols rfl (Or.inr rfl) rfl⟩

/-- C5 counterexample: on SQLite the field name `invalid-field-name` — which
fails the identifier regex — is not rejected by any configuration check:
the generated-column expression is built with the name interpolated, and
the sync executes the shadow DROP and the shadow CREATE TABLE (DDL with the
invalid name embedded) before failing — and the failure it does hit is a
SQLite syntax error thrown by `prepare` on the unquoted
`CREATE INDEX ... idx_invalid-field-name` statement, not a configuration
error raised before DDL.  Only the MySQL expression builder rejects the
name. -/
theorem sqlite_sync_accepts_invalid_field_name :
    matchesIdentifierRegex "invalid-field-name" = false
  ∧ Sqlite.createGeneratedColumnExpression "invalid-field-name"
        FilterSortField.string { name := "planet" }
      = "json_extract(contents, '$.invalid-field-name')"
  ∧ Sqlite.runMigrateContentsColumn
        { name := "planet",
          filterSortFields := some [("invalid-field-name", FilterSortField.string)] }
        "planet" { contentsType := "TEXT", rows := [] }
      = ([DdlOp.dropTableIfExists "planet_2",
          DdlOp.createTable "planet_2"
            ["id TEXT PRIMARY KEY", "contents JSON NOT NULL",
             "\"invalid-field-name\" TEXT GENERATED ALWAYS AS (json_extract(contents, '$.invalid-field-name')) STORED NULL"]
            []],
         Except.error
           "syntax error in CREATE INDEX IF NOT EXISTS idx_invalid-field-name ON planet_2(\"invalid-field-name\")")
  ∧ Mysql.createGeneratedColumnExpression "invalid-field-name"
        FilterSortField.string { name := "planet" }
      = Except.error
          "Invalid field name \"invalid-field-name\". Field names must match /^[A-Za-z_][A-Za-z0-9_]*$/" :=
  ⟨rfl, rfl, rfl, rfl⟩

/-- C5 as amended: field-name validation happens on MySQL only.  For every
name failing the identifier regex, the MySQL expression builder — and with
it the MySQL contents migration, whose column list is built before any DDL
is executed — fails with the configuration error.  The SQLite migration
performs no validation: it executes the shadow DROP and the shadow CREATE
TABLE with the name interpolated, so DDL runs before any failure; when the
unquoted `idx_<field>` index name additionally fails to lex as an
identifier, the sync then aborts with a SQLite syntax error from the
CREATE INDEX statement — a driver error after partial DDL, not a
configuration error before it. -/
theorem mysql_only_field_name_validation (fieldName : String) (ft : FilterSortField)
    (entity : EntityDefinition) (tableName : String)
    (mst : MysqlTableState) (sst : SqliteTableState)
    (h : matchesIdentifierRegex fieldName = false)
    (hf : entity.filterSortFields = some [(fieldName, ft)])
    (hm : Mysql.getContentsColumnType mst = "text"
          ∨ Mysql.getContentsColumnType mst = "longtext")
    (hs : sst.contentsType = "TEXT") :
    Mysql.createGeneratedColumnExpression fieldName ft entity
      = Except.error ("Invalid field name \"" ++ fieldName
          ++ "\". Field names must match /^[A-Za-z_][A-Za-z0-9_]*$/")
  ∧ Mysql.migrateContentsColumn entity tableName mst
      = Except.error ("Invalid field name \"" ++ fieldName
          ++ "\". Field names must match /^[A-Za-z_][A-Za-z0-9_]*$/")
  ∧ (Sqlite.runMigrateContentsColumn entity tableName sst).1.take 2
      = [DdlOp.dropTableIfExists (tableName ++ "_2"),
         DdlOp.createTable (tableName ++ "_2")
           (Sqlite.migrationColumns entity (tableName ++ "_2")).1 []]
  ∧ (matchesIdentifierRegex ("idx_" ++ fieldName) = false →
       Sqlite.runMigrateContentsColumn entity tableName sst
         = ([DdlOp.dropTableIfExists (tableName ++ "_2"),
             DdlOp.createTable (tableName ++ "_2")
               (Sqlite.migrationColumns entity (tableName ++ "_2")).1 []],
            Except.error ("syntax error in "
              ++ ("CREATE INDEX IF NOT EXISTS idx_" ++ fieldName ++ " ON "
                  ++ (tableName ++ "_2") ++ "(\"" ++ fieldName ++ "\")")))) := by
  have hid : (fieldName == "id") = false := by
    cases hb : fieldName == "id"
    · rfl
    · have he : fieldName = "id" := eq_of_beq hb
      subst he
      exact absurd h (by decide)
  have hcond : (Mysql.getContentsColumnType mst == "text"
      || Mysql.getContentsColumnType mst == "longtext") = true := by
    rcases hm with hm | hm <;> simp [hm]
  have hfields : Sqlite.indexFields entity = [fieldName] := by
    simp [Sqlite.indexFields, hf, List.filter_cons, bne, hid]
  refine ⟨?_, ?_, ?_, ?_⟩
  · simp [Mysql.createGeneratedColumnExpression, Mysql.validateFieldName, h,
      Except.bind, bind]
  · simp [Mysql.migrateContentsColumn, hcond, Mysql.migrationColumns, hf,
      List.foldlM, hid, Mysql.createGeneratedColumnExpression,
      Mysql.validateFieldName, h, Except.bind, bind, pure]
  · by_cases hd : matchesIdentifierRegex ("idx_" ++ fieldName) = true
    · simp [Sqlite.runMigrateContentsColumn, hs, hfields,
        Sqlite.runIndexStatements, hd]
    · have hd2 : matchesIdentifierRegex ("idx_" ++ fieldName) = false := by
        simpa using hd
      simp [Sqlite.runMigrateContentsColumn, hs, hfields,
        Sqlite.runIndexStatements, hd2]
  · intro hd
    simp [Sqlite.runMigrateContentsColumn, hs, hfields,
      Sqlite.runIndexStatements, hd, String.append_assoc]

/-- Witness for C5\'s amended theorem at the field name `invalid-field-name`
(declared a boolean filterSortField, as in the repository\'s regression
test) over legacy tables on both engines, with the later-syntax-error
implication discharged concretely. -/
theorem mysql_only_field_name_validation_witness :
    matchesIdentifierRegex "invalid-field-name" = false
  ∧ ({ name := "planet",
       filterSortFields := some [("invalid-field-name", FilterSortField.boolean)] }
        : EntityDefinition).filterSortFields
      = some [("invalid-field-name", FilterSortField.boolean)]
  ∧ (Mysql.getContentsColumnType
        { columnType := "longtext", dataType := "longtext",
          hasJsonValidConstraint := false, checkConstraintsQueryFails := false,
          rows := [] } = "text"
     ∨ Mysql.getContentsColumnType
        { columnType := "longtext", dataType := "longtext",
          hasJsonValidConstraint := false, checkConstraintsQueryFails := false,
          rows := [] } = "longtext")
  ∧ ({ contentsType := "TEXT", rows := [] } : SqliteTableState).contentsType = "TEXT"
  ∧ matchesIdentifierRegex ("idx_" ++ "invalid-field-name") = false
  ∧ (Mysql.createGeneratedColumnExpression "invalid-field-name"
        FilterSortField.boolean
        { name := "planet",
          filterSortFields := some [("invalid-field-name", FilterSortField.boolean)] }
      = Except.error ("Invalid field name \"" ++ "invalid-field-name"
          ++ "\". Field names must match /^[A-Za-z_][A-Za-z0-9_]*$/")
     ∧ Mysql.migrateContentsColumn
        { name := "planet",
          filterSortFields := some [("invalid-field-name", FilterSortField.boolean)] }
        "planet"
        { columnType := "longtext", dataType := "longtext",
          hasJsonValidConstraint := false, checkConstraintsQueryFails := false,
          rows := [] }
      = Except.error ("Invalid field name \"" ++ "invalid-field-name"
          ++ "\". Field names must match /^[A-Za-z_][A-Za-z0-9_]*$/")
     ∧ (Sqlite.runMigrateContentsColumn
        { name := "planet",
          filterSortFields := some [("invalid-field-name", FilterSortField.boolean)] }
        "planet" { contentsType := "TEXT", rows := [] }).1.take 2
      = [DdlOp.dropTableIfExists ("planet" ++ "_2"),
         DdlOp.createTable ("planet" ++ "_2")
           (Sqlite.migrationColumns
             { name := "planet",
               filterSortFields := some [("invalid-field-name", FilterSortField.boolean)] }
             ("planet" ++ "_2")).1 []]
     ∧ Sqlite.runMigrateContentsColumn
        { name := "planet",
          filterSortFields := some [("invalid-field-name", FilterSortField.boolean)] }
        "planet" { contentsType := "TEXT", rows := [] }
      = ([DdlOp.dropTableIfExists ("planet" ++ "_2"),
          DdlOp.createTable ("planet" ++ "_2")
            (Sqlite.migrationColumns
              { name := "planet",
                filterSortFields := some [("invalid-field-name", FilterSortField.boolean)] }
              ("planet" ++ "_2")).1 []],
         Except.error ("syntax error in "
           ++ ("CREATE INDEX IF NOT EXISTS idx_" ++ "invalid-field-name" ++ " ON "
               ++ ("planet" ++ "_2") ++ "(\"" ++ "invalid-field-name" ++ "\")")))) :=
  have T := mysql_only_field_name_validation "invalid-field-name" FilterSortField.boolean
    { name := "planet",
      filterSortFields := some [("invalid-field-name", FilterSortField.boolean)] }
    "planet"
    { columnType := "longtext", dataType := "longtext",
      hasJsonValidConstraint := false, checkConstraintsQueryFails := false,
      rows := [] }
    { contentsType := "TEXT", rows := [] }
    (by decide) rfl (Or.inr rfl) rfl
  ⟨by decide, rfl, Or.inr rfl, rfl, by decide,
   T.1, T.2.1, T.2.2.1, T.2.2.2 (by decide)⟩
